import Mathlib

/-!
Verification of the buyer/seller messaging and notification subsystem of a
classifieds-marketplace backend (Django): `messaging/models.py`,
`messaging/serializers.py`, `messaging/views.py`, `messaging/services.py`,
`messaging/signals.py`.

The relational state is embedded shallowly: each Django model becomes a
structure, the database becomes lists of rows, and each endpoint or service
function becomes a Lean function on that state.  Bulk queryset updates are
`List.map`, queryset `first()` under the declared ordering is `List.find?`
over the row list, and server-assigned timestamps (`auto_now_add`) are
explicit `now : Nat` parameters.  DRF validation failures and HTTP error
responses are `Except ApiError`.
-/

namespace Messaging

/-- `Message.MESSAGE_TYPE_CHOICES` in `messaging/models.py`. -/
inductive MessageType
  | text
  | image
  | system
deriving DecidableEq, Repr

/-- `Notification.NOTIFICATION_TYPE_CHOICES` in `messaging/models.py`. -/
inductive NotificationType
  | new_message
  | new_conversation
  | ad_approved
  | ad_rejected
  | ad_expired
  | ad_expiring_soon
  | system
deriving DecidableEq, Repr

/-- The fields of `accounts.models.User` consumed by the messaging core:
identity, display name (`get_full_name`), and the two email-preference
booleans read by `NotificationService.create_notification`. -/
structure UserRec where
  id : Nat
  name : String
  email_notifications : Bool
  email_message_notifications : Bool
deriving DecidableEq, Repr

/-- The fields of `ads.models.Ad` consumed by the messaging core: identity,
owner (`ad.user`), title, and moderation status (`"approved"` etc.). -/
structure Ad where
  id : Nat
  user : Nat
  title : String
  status : String
deriving DecidableEq, Repr

/-- `messaging.models.Conversation`: buyer/seller pair about one ad, with
lifecycle flags and the last-activity timestamp. -/
structure Conversation where
  id : Nat
  buyer : Nat
  seller : Nat
  ad : Nat
  is_active : Bool
  is_blocked : Bool
  blocked_by : Option Nat
  created_at : Nat
  last_message_at : Option Nat
deriving DecidableEq, Repr

/-- `messaging.models.Message`. -/
structure Message where
  id : Nat
  conversation : Nat
  sender : Nat
  message_type : MessageType
  content : String
  image : Option String
  is_read : Bool
  read_at : Option Nat
  is_flagged : Bool
  created_at : Nat
deriving DecidableEq, Repr

/-- `messaging.models.Notification`. -/
structure Notification where
  id : Nat
  recipient : Nat
  notification_type : NotificationType
  title : String
  message : String
  conversation : Option Nat
  ad : Option Nat
  action_url : Option String
  is_read : Bool
  read_at : Option Nat
  email_sent : Bool
deriving DecidableEq, Repr

/-- The relational database state.  `sentEmails` instruments the external
`EmailService.send_email` boundary: it records the ids of notifications for
which the transport was invoked (whatever the outcome). -/
structure DB where
  users : List UserRec
  ads : List Ad
  conversations : List Conversation
  messages : List Message
  notifications : List Notification
  sentEmails : List Nat
  nextConversationId : Nat
  nextMessageId : Nat
  nextNotificationId : Nat
deriving DecidableEq, Repr

/-- Outcome of one call to the external transport
`EmailService.send_email(..., fail_silently=True)`: it returns `True`,
returns `False`, or (defensively, the code wraps it in try/except) raises. -/
inductive SendOutcome
  | success
  | failure
  | raised
deriving DecidableEq, Repr

/-- Ambient configuration of the dispatcher:
`settings.NOTIFICATION_SETTINGS.get('EMAIL_NOTIFICATIONS', False)` and the
behaviour of the external email transport on the next call. -/
structure NotifEnv where
  emailEnabled : Bool
  transport : SendOutcome
deriving DecidableEq, Repr

/-- Errors surfaced to HTTP callers: DRF `ValidationError` (with its message),
404 from `get_object`, 403 responses, and a Python `AttributeError` escaping
as a 500. -/
inductive ApiError
  | validationError (msg : String)
  | notFound
  | forbidden
  | attributeError
deriving DecidableEq, Repr

/-- `Conversation.get_other_user` (models.py line 61):
`self.seller if user == self.buyer else self.buyer`. -/
def getOtherUser (c : Conversation) (user : Nat) : Nat :=
  if user = c.buyer then c.seller else c.buyer

/-- `Conversation.get_unread_count` (models.py line 65):
`self.messages.filter(is_read=False).exclude(sender=user).count()`. -/
def getUnreadCount (db : DB) (convId user : Nat) : Nat :=
  (db.messages.filter fun m =>
    m.conversation == convId && !m.is_read && m.sender != user).length

/-- `Conversation.mark_as_read` (models.py line 69): bulk
`update(is_read=True, read_at=timezone.now())` on the conversation's unread
messages not sent by `user`.  A queryset `update` fires no signals. -/
def markConversationRead (db : DB) (convId user now : Nat) : DB :=
  { db with
    messages := db.messages.map fun m =>
      if m.conversation == convId && !m.is_read && m.sender != user then
        { m with is_read := true, read_at := some now }
      else m }

/-- The body of the `post_save` receiver `message_created`
(signals.py lines 27-53) for one conversation row: if the new message is
strictly newer than the stored `last_message_at` (or none is stored), store
its `created_at`. -/
def applyLastUpdate (c : Conversation) (t : Nat) : Conversation :=
  match c.last_message_at with
  | none => { c with last_message_at := some t }
  | some a => if t > a then { c with last_message_at := some t } else c

/-- The `post_save` receiver `message_created` (signals.py lines 27-53).
It fires on every `Message` save; its body runs only when `created` is true
and the message is not of type `system`. -/
def messageCreatedSignal (db : DB) (m : Message) (created : Bool) : DB :=
  if created && m.message_type != MessageType.system then
    { db with
      conversations := db.conversations.map fun c =>
        if c.id == m.conversation then applyLastUpdate c m.created_at else c }
  else db

/-- `Message.objects.create(...)`: inserts the row with a server-assigned pk
and `created_at`, then Django fires `post_save` with `created=True`, which
runs `message_created`. -/
def djangoMessageCreate (db : DB) (convId sender : Nat) (mtype : MessageType)
    (content : String) (image : Option String) (now : Nat) : DB × Message :=
  let m : Message :=
    { id := db.nextMessageId, conversation := convId, sender := sender,
      message_type := mtype, content := content, image := image,
      is_read := false, read_at := none, is_flagged := false,
      created_at := now }
  let db1 : DB :=
    { db with messages := db.messages ++ [m],
              nextMessageId := db.nextMessageId + 1 }
  (messageCreatedSignal db1 m true, m)

/-- Resolve a user row by id.  In Django the foreign keys guarantee the row
exists; the default value only makes the lookup total. -/
def findUserD (db : DB) (uid : Nat) : UserRec :=
  (db.users.find? fun u => u.id == uid).getD
    { id := uid, name := "", email_notifications := false,
      email_message_notifications := false }

/-- `NotificationService._send_email_notification` (services.py lines 42-87):
invokes `EmailService.send_email(..., fail_silently=True)`; on `True` it sets
`email_sent=True` on the stored row; on `False` it only logs; any exception
is caught and logged.  The transport invocation itself is recorded in
`sentEmails`. -/
def sendEmailNotification (db : DB) (env : NotifEnv) (n : Notification) :
    DB × Notification :=
  let db1 : DB := { db with sentEmails := db.sentEmails ++ [n.id] }
  match env.transport with
  | SendOutcome.success =>
      let n1 := { n with email_sent := true }
      ({ db1 with notifications :=
            db1.notifications.map fun x => if x.id == n.id then n1 else x },
       n1)
  | SendOutcome.failure => (db1, n)
  | SendOutcome.raised => (db1, n)

/-- `NotificationService.create_notification` (services.py lines 12-40):
always persists the in-app `Notification` row first; then, depending on the
per-user preference selected by the notification type and on the system-wide
`EMAIL_NOTIFICATIONS` toggle, attempts email delivery. -/
def createNotification (db : DB) (env : NotifEnv) (recipient : UserRec)
    (ntype : NotificationType) (title message : String)
    (conversation ad : Option Nat) (action_url : Option String) :
    DB × Notification :=
  let n : Notification :=
    { id := db.nextNotificationId, recipient := recipient.id,
      notification_type := ntype, title := title, message := message,
      conversation := conversation, ad := ad, action_url := action_url,
      is_read := false, read_at := none, email_sent := false }
  let db1 : DB :=
    { db with notifications := db.notifications ++ [n],
              nextNotificationId := db.nextNotificationId + 1 }
  let shouldSendEmail : Bool :=
    if ntype == NotificationType.new_message
        || ntype == NotificationType.new_conversation then
      recipient.email_message_notifications
    else
      recipient.email_notifications
  if shouldSendEmail && env.emailEnabled then
    sendEmailNotification db1 env n
  else
    (db1, n)

/-- `NotificationService.send_new_message_notification`
(services.py lines 93-108): preview truncation to 100 characters and a
`new_message` notification to `recipient`. -/
def sendNewMessageNotification (db : DB) (env : NotifEnv)
    (recipient sender : UserRec) (message : Message) (conv : Conversation) :
    DB × Notification :=
  let title := "New message from " ++ sender.name
  let content :=
    if message.content.length > 100 then message.content.take 100 ++ "..."
    else message.content
  createNotification db env recipient NotificationType.new_message title
    content (some conv.id) (some conv.ad)
    (some ("/messages/" ++ toString conv.id))

/-- `NotificationService.send_new_conversation_notification`
(services.py lines 110-125). -/
def sendNewConversationNotification (db : DB) (env : NotifEnv)
    (recipient sender : UserRec) (conv : Conversation) : DB × Notification :=
  let adTitle := ((db.ads.find? fun a => a.id == conv.ad).map Ad.title).getD ""
  let title := sender.name ++ " is interested in your ad"
  let messageText :=
    sender.name ++ " started a conversation about \x27" ++ adTitle ++ "\x27"
  createNotification db env recipient NotificationType.new_conversation title
    messageText (some conv.id) (some conv.ad)
    (some ("/messages/" ++ toString conv.id))

/-- The `post_save` receiver `conversation_created` (signals.py lines 11-24):
on creation of a conversation, notify the seller. -/
def conversationCreatedSignal (db : DB) (env : NotifEnv) (c : Conversation) :
    DB :=
  (sendNewConversationNotification db env (findUserD db c.seller)
    (findUserD db c.buyer) c).1

/-- A request body for the message-create endpoint.  `content` and `image`
are `none` when the field is absent from the payload. -/
structure AppendRequest where
  conversation : Nat
  message_type : MessageType
  content : Option String
  image : Option String
deriving DecidableEq, Repr

/-- DRF field validation plus `MessageCreateSerializer.validate`
(serializers.py lines 59-97).  The generated `conversation` field resolves
against `Conversation.objects.all()` (no participant restriction); the
generated `content` field is required with `allow_blank=False` because the
model `TextField` has neither `blank=True` nor a default; `image` is
optional.  Then `validate` checks content for text, image payload for image,
and the conversation's `is_active` / `is_blocked` flags. -/
def messageCreateValidate (db : DB) (req : AppendRequest) :
    Except ApiError Conversation :=
  match db.conversations.find? fun c => c.id == req.conversation with
  | none => Except.error (ApiError.validationError "conversation: invalid pk")
  | some conv =>
    match req.content with
    | none =>
        Except.error (ApiError.validationError "content: This field is required.")
    | some s =>
      if s == "" then
        Except.error (ApiError.validationError "content: This field may not be blank.")
      else if req.message_type == MessageType.text && s == "" then
        Except.error (ApiError.validationError "Text messages must have content.")
      else if req.message_type == MessageType.image && req.image == none then
        Except.error (ApiError.validationError "Image messages must include an image.")
      else if !conv.is_active then
        Except.error (ApiError.validationError "Cannot send messages to inactive conversations.")
      else if conv.is_blocked then
        Except.error (ApiError.validationError "This conversation has been blocked.")
      else Except.ok conv

/-- The success path of `MessageViewSet.create` (views.py lines 305-333)
once validation has produced `conv`: `serializer.save()` creates the message
with `sender = request.user`, then the view resolves the recipient with
`conversation.get_other_user(request.user)` and fires
`send_new_message_notification` (wrapped in try/except). -/
def messageCreateCore (db : DB) (env : NotifEnv) (sender : Nat)
    (conv : Conversation) (req : AppendRequest) (now : Nat) : DB × Message :=
  let created := djangoMessageCreate db conv.id sender req.message_type
    (req.content.getD "") req.image now
  let db1 := created.1
  let m := created.2
  let recipient := findUserD db (getOtherUser conv sender)
  let senderRec := findUserD db sender
  ((sendNewMessageNotification db1 env recipient senderRec m conv).1, m)

/-- `MessageViewSet.create` (views.py lines 305-333): validate, persist the
message, notify the other participant, return the created message. -/
def messageViewCreate (db : DB) (env : NotifEnv) (sender : Nat)
    (req : AppendRequest) (now : Nat) : Except ApiError (DB × Message) :=
  match messageCreateValidate db req with
  | Except.error e => Except.error e
  | Except.ok conv => Except.ok (messageCreateCore db env sender conv req now)

/-- One call to the message-create endpoint: the acting user, the request
body, and the server clock at that instant. -/
structure AppendCall where
  sender : Nat
  req : AppendRequest
  now : Nat
deriving DecidableEq, Repr

/-- One call to the message-create endpoint as a state transformer: a call
that fails validation leaves the state unchanged (DRF aborts before any
write). -/
def appendStep (env : NotifEnv) (db : DB) (call : AppendCall) : DB :=
  match messageViewCreate db env call.sender call.req call.now with
  | Except.ok r => r.1
  | Except.error _ => db

/-- A sequence of calls to the message-create endpoint. -/
def runAppends (db : DB) (env : NotifEnv) (calls : List AppendCall) : DB :=
  calls.foldl (appendStep env) db

/-- The stored `last_message_at` of the conversation with id `cid`
(`none` also when no such conversation exists). -/
def lastMessageAt (db : DB) (cid : Nat) : Option Nat :=
  (db.conversations.find? fun c => c.id == cid).bind Conversation.last_message_at

/-- `o1 ≤ o2` on optional timestamps, `none` below everything. -/
def leOptB : Option Nat → Option Nat → Bool
  | none, _ => true
  | some _, none => false
  | some a, some b => a ≤ b

/-- `ConversationViewSet.retrieve` (views.py lines 99-107): `get_object`
resolves the pk inside `get_queryset`, which for `retrieve` restricts to the
caller's conversations and applies the default `status=active` filter
(`is_active=True, is_blocked=False`); then every message in the conversation
not sent by the caller is marked read. -/
def retrieveConversation (db : DB) (user cid now : Nat) : Except ApiError DB :=
  match db.conversations.find? fun c =>
      c.id == cid && (c.buyer == user || c.seller == user)
        && c.is_active && !c.is_blocked with
  | none => Except.error ApiError.notFound
  | some c => Except.ok (markConversationRead db c.id user now)

/-- Does `c` have `{u1, u2}` as its buyer/seller pair, in either order?
This is the filter `Q(buyer=u1, seller=u2) | Q(buyer=u2, seller=u1)` used by
`block` and `unblock` (views.py lines 124-127 and 157-161). -/
def pairFilter (u1 u2 : Nat) (c : Conversation) : Bool :=
  (c.buyer == u1 && c.seller == u2) || (c.buyer == u2 && c.seller == u1)

/-- `ConversationViewSet.block` (views.py lines 109-140): `get_object` only
sees the caller's conversations (404 otherwise); the explicit participant
check then re-verifies membership; finally every conversation of the
{actor, other} pair is bulk-updated to `is_blocked=True, blocked_by=actor`,
and the number of updated rows is returned. -/
def blockView (db : DB) (actor cid : Nat) : Except ApiError (DB × Nat) :=
  match db.conversations.find? fun c =>
      c.id == cid && (c.buyer == actor || c.seller == actor) with
  | none => Except.error ApiError.notFound
  | some conv =>
    if !(actor == conv.buyer || actor == conv.seller) then
      Except.error ApiError.forbidden
    else
      let other := getOtherUser conv actor
      let cnt := (db.conversations.filter (pairFilter actor other)).length
      Except.ok
        ({ db with conversations := db.conversations.map fun c =>
            if pairFilter actor other c then
              { c with is_blocked := true, blocked_by := some actor }
            else c },
         cnt)

/-- `ConversationViewSet.unblock` (views.py lines 142-174): only the user
recorded as `blocked_by` on the addressed conversation may unblock (403
otherwise); then every conversation of the pair **that was blocked by the
actor** is bulk-updated to `is_blocked=False, blocked_by=None`. -/
def unblockView (db : DB) (actor cid : Nat) : Except ApiError (DB × Nat) :=
  match db.conversations.find? fun c =>
      c.id == cid && (c.buyer == actor || c.seller == actor) with
  | none => Except.error ApiError.notFound
  | some conv =>
    if conv.blocked_by != some actor then
      Except.error ApiError.forbidden
    else
      let other := getOtherUser conv actor
      let target := fun c =>
        pairFilter actor other c && c.blocked_by == some actor
      let cnt := (db.conversations.filter target).length
      Except.ok
        ({ db with conversations := db.conversations.map fun c =>
            if target c then
              { c with is_blocked := false, blocked_by := none }
            else c },
         cnt)

/-- The reuse branch of `ConversationCreateSerializer.create`
(serializers.py lines 257-259): `if not created and not conversation.is_active:
conversation.is_active = True; conversation.save()`. -/
def reactivateIfArchived (db : DB) (c0 : Conversation) : DB :=
  if !c0.is_active then
    { db with conversations := db.conversations.map fun x =>
        if x.id == c0.id then { x with is_active := true } else x }
  else db

/-- The optional initial message of `ConversationCreateSerializer.create`
(serializers.py lines 261-267): a direct `Message.objects.create` with
`message_type='text'` — it bypasses `MessageCreateSerializer` and fires only
the `message_created` signal, not the new-message notification. -/
def appendInitialMessage (db : DB) (convId buyer : Nat)
    (im : Option String) (now : Nat) : DB :=
  match im with
  | none => db
  | some s => (djangoMessageCreate db convId buyer MessageType.text s none now).1

/-- The fresh conversation row inserted by `get_or_create` with defaults
`is_active=True, is_blocked=False` (serializers.py lines 250-255). -/
def newConv (db : DB) (buyer seller adId now : Nat) : Conversation :=
  { id := db.nextConversationId, buyer := buyer, seller := seller,
    ad := adId, is_active := true, is_blocked := false,
    blocked_by := none, created_at := now, last_message_at := none }

/-- `ConversationCreateSerializer` (serializers.py lines 159-269) driven by
the default `ModelViewSet.create`: field validation (`ad_id` must name an
approved ad; `initial_message` is optional, `allow_blank=False`,
`max_length=1000`), then `create`: reject self-conversation, consult the
blocking state of the pair, then `get_or_create` on the
(buyer, seller, ad) triple, reactivating an archived conversation and
appending the initial message.  A freshly created conversation fires the
`conversation_created` signal.  Returns the conversation id. -/
def conversationCreateView (db : DB) (env : NotifEnv) (buyer adId : Nat)
    (im : Option String) (now : Nat) : Except ApiError (DB × Nat) :=
  if (db.ads.find? fun a => a.id == adId && a.status == "approved").isNone then
    Except.error (ApiError.validationError "Ad not found or not available.")
  else if (match im with | some s => s == "" || s.length > 1000 | none => false) then
    Except.error (ApiError.validationError "initial_message")
  else
    match db.ads.find? fun a => a.id == adId with
    | none => Except.error ApiError.notFound
    | some ad =>
      if buyer == ad.user then
        Except.error (ApiError.validationError
          "You cannot start a conversation with yourself.")
      else
        match db.conversations.find? fun c =>
            pairFilter buyer ad.user c && c.is_blocked with
        | some existingBlocked =>
          if existingBlocked.blocked_by == some buyer then
            Except.error (ApiError.validationError
              "You have blocked this user. Please unblock them first to start a conversation.")
          else
            Except.error (ApiError.validationError
              "This user has blocked you. You cannot start a conversation with them.")
        | none =>
          match db.conversations.find? fun c =>
              c.buyer == buyer && c.seller == ad.user && c.ad == adId with
          | some conv =>
            Except.ok (appendInitialMessage (reactivateIfArchived db conv)
              conv.id buyer im now, conv.id)
          | none =>
            Except.ok (appendInitialMessage
              (conversationCreatedSignal
                { db with
                    conversations := db.conversations
                      ++ [newConv db buyer ad.user adId now],
                    nextConversationId := db.nextConversationId + 1 }
                env (newConv db buyer ad.user adId now))
              (newConv db buyer ad.user adId now).id buyer im now,
             (newConv db buyer ad.user adId now).id)

/-- `MessageViewSet.mark_read` (views.py lines 335-353): `get_object` only
sees messages of the caller's conversations; a sender may not mark their own
message read; otherwise the view calls `message.mark_as_read()` — but
`messaging/models.py` defines `mark_as_read` nested inside a module-level
`save` function (lines 127-143), not on the `Message` class, so the
attribute lookup raises `AttributeError` and the request fails with a 500
before any state change. -/
def markReadView (db : DB) (actor mid : Nat) : Except ApiError DB :=
  match db.messages.find? fun m => m.id == mid with
  | none => Except.error ApiError.notFound
  | some m =>
    match db.conversations.find? fun c =>
        c.id == m.conversation && (c.buyer == actor || c.seller == actor) with
    | none => Except.error ApiError.notFound
    | some _ =>
      if m.sender == actor then
        Except.error (ApiError.validationError
          "You cannot mark your own message as read.")
      else
        Except.error ApiError.attributeError

/-- `MessageViewSet.flag` (views.py lines 382-390): sets `is_flagged` and
re-saves the message; the full `save()` fires `post_save` with
`created=False`, so `message_created` does nothing. -/
def flagMessageView (db : DB) (actor mid : Nat) : Except ApiError DB :=
  match db.messages.find? fun m => m.id == mid with
  | none => Except.error ApiError.notFound
  | some m =>
    match db.conversations.find? fun c =>
        c.id == m.conversation && (c.buyer == actor || c.seller == actor) with
    | none => Except.error ApiError.notFound
    | some _ =>
      let m1 := { m with is_flagged := true }
      let db1 : DB :=
        { db with messages := db.messages.map fun x =>
            if x.id == mid then m1 else x }
      Except.ok (messageCreatedSignal db1 m1 false)

/-! ### Auxiliary definitions used by the theorem statements -/

/-- `Except` success test. -/
def isOkE {ε α : Type} : Except ε α → Bool
  | Except.ok _ => true
  | Except.error _ => false

/-- Maximum of an optional previous value and a new timestamp. -/
def omax : Option Nat → Nat → Option Nat
  | none, t => some t
  | some a, t => some (max a t)

/-- The messages present in `dbNew` but not yet in `dbOld` (rows are only
ever appended to the log). -/
def newMessages (dbOld dbNew : DB) : List Message :=
  dbNew.messages.drop dbOld.messages.length

/-- The timestamps of the non-system messages of conversation `cid` within a
message list. -/
def nonSystemTimes (cid : Nat) (ms : List Message) : List Nat :=
  (ms.filter fun m =>
    m.conversation == cid && m.message_type != MessageType.system).map
    Message.created_at

/-- The notifications present in `dbNew` but not yet in `dbOld` (bulk
operations never shorten the table, and the one mutation of an existing row
— setting `email_sent` — keeps its position). -/
def newNotifications (dbOld dbNew : DB) : List Notification :=
  dbNew.notifications.drop dbOld.notifications.length

/-- The conversation fields outside the block/unblock footprint: identity,
participants, listing, archived flag, creation and last-activity
timestamps. -/
def frameFields (c : Conversation) :
    Nat × Nat × Nat × Nat × Bool × Nat × Option Nat :=
  (c.id, c.buyer, c.seller, c.ad, c.is_active, c.created_at,
   c.last_message_at)

/-- Written from the spec's words: `c` is a conversation of the user pair
{actor, other}, in either role order. -/
def specPair (actor other : Nat) (c : Conversation) : Prop :=
  (c.buyer = actor ∧ c.seller = other) ∨ (c.buyer = other ∧ c.seller = actor)

instance (actor other : Nat) (c : Conversation) :
    Decidable (specPair actor other c) := by
  unfold specPair
  infer_instance

/-- Written from the spec's words: the state in which every conversation of
the pair {actor, other} carries `is_blocked = true, blocked_by = actor` and
every other conversation is untouched. -/
def specBlockState (db : DB) (actor other : Nat) : DB :=
  { db with conversations := db.conversations.map fun c =>
      if specPair actor other c then
        { c with is_blocked := true, blocked_by := some actor }
      else c }

/-- Written from the spec's words: the number of conversations of the pair. -/
def specBlockCount (db : DB) (actor other : Nat) : Nat :=
  (db.conversations.filter fun c => decide (specPair actor other c)).length

/-- Written from the spec's words: the state in which exactly the pair's
conversations whose `blocked_by` is the actor are reset to
`is_blocked = false, blocked_by = none`; conversations blocked by the other
party are untouched. -/
def specUnblockState (db : DB) (actor other : Nat) : DB :=
  { db with conversations := db.conversations.map fun c =>
      if specPair actor other c ∧ c.blocked_by = some actor then
        { c with is_blocked := false, blocked_by := none }
      else c }

/-- Written from the spec's words: the number of the pair's conversations
whose `blocked_by` is the actor. -/
def specUnblockCount (db : DB) (actor other : Nat) : Nat :=
  (db.conversations.filter fun c =>
    decide (specPair actor other c ∧ c.blocked_by = some actor)).length

/-- Two conversations about the same (buyer, seller, ad) triple. -/
def sameTriple (a b : Conversation) : Prop :=
  a.buyer = b.buyer ∧ a.seller = b.seller ∧ a.ad = b.ad

/-- The natural-key invariant: at most one conversation per
(buyer, seller, ad) triple. -/
def TripleUnique (l : List Conversation) : Prop :=
  l.Pairwise fun a b => ¬ sameTriple a b

/-- The sender of the created message, when the request succeeded. -/
def apResultSender : Except ApiError (DB × Message) → Option Nat
  | Except.ok r => some r.2.sender
  | Except.error _ => none

/-- The number of stored messages after the request, when it succeeded. -/
def apResultMsgCount : Except ApiError (DB × Message) → Option Nat
  | Except.ok r => some r.1.messages.length
  | Except.error _ => none

/-- The number of stored notifications after the request, when it
succeeded. -/
def apResultNotifCount : Except ApiError (DB × Message) → Option Nat
  | Except.ok r => some r.1.notifications.length
  | Except.error _ => none

/-! ### Concrete states used by counterexamples and witnesses -/

/-- Dispatcher configuration with the system-wide email toggle off. -/
def exEnv : NotifEnv := { emailEnabled := false, transport := SendOutcome.failure }

def exUser1 : UserRec :=
  { id := 1, name := "A", email_notifications := true,
    email_message_notifications := true }

def exUser2 : UserRec :=
  { id := 2, name := "B", email_notifications := true,
    email_message_notifications := true }

def exUser3 : UserRec :=
  { id := 3, name := "C", email_notifications := true,
    email_message_notifications := true }

def exAd : Ad := { id := 1, user := 2, title := "bike", status := "approved" }

/-- An active, unblocked conversation between buyer 1 and seller 2 about
ad 1, with no message yet. -/
def exConv : Conversation :=
  { id := 1, buyer := 1, seller := 2, ad := 1, is_active := true,
    is_blocked := false, blocked_by := none, created_at := 0,
    last_message_at := none }

/-- Base state: users 1, 2, 3, one approved ad owned by user 2, one empty
conversation between 1 and 2. -/
def exDb : DB :=
  { users := [exUser1, exUser2, exUser3], ads := [exAd],
    conversations := [exConv], messages := [], notifications := [],
    sentEmails := [], nextConversationId := 2, nextMessageId := 1,
    nextNotificationId := 1 }

/-- A text append by user 1 at time 5. -/
def exCall1 : AppendCall :=
  { sender := 1,
    req := { conversation := 1, message_type := MessageType.text,
             content := some "hi", image := none },
    now := 5 }

/-- A system append at time 10. -/
def exCall2 : AppendCall :=
  { sender := 1,
    req := { conversation := 1, message_type := MessageType.system,
             content := some "x", image := none },
    now := 10 }

/-- An unread text message from user 2 in conversation 1. -/
def exMsg : Message :=
  { id := 1, conversation := 1, sender := 2,
    message_type := MessageType.text, content := "yo", image := none,
    is_read := false, read_at := none, is_flagged := false, created_at := 4 }

/-- The base state with one unread message from user 2. -/
def exDbMsg : DB := { exDb with messages := [exMsg], nextMessageId := 2 }

/-- An archived (but unblocked) copy of the 1↔2 conversation. -/
def exConvArchived : Conversation := { exConv with is_active := false }

/-- The base state with the 1↔2 conversation archived. -/
def exDbArchived : DB := { exDb with conversations := [exConvArchived] }

/-- The 1↔2 conversation blocked by user 2. -/
def exConvBlocked : Conversation :=
  { exConv with is_blocked := true, blocked_by := some 2 }

/-- The base state with the 1↔2 conversation blocked by user 2. -/
def exDbBlocked : DB := { exDb with conversations := [exConvBlocked] }

/-- The 1↔2 conversation blocked by user 1. -/
def exConvBlockedBy1 : Conversation :=
  { exConv with is_blocked := true, blocked_by := some 1 }

/-- The base state with the 1↔2 conversation blocked by user 1. -/
def exDbBlockedBy1 : DB := { exDb with conversations := [exConvBlockedBy1] }

/-! ### Helper lemmas -/

theorem aux_find?_map_comm {α : Type} (l : List α) (f : α → α) (p : α → Bool)
    (h : ∀ a, p (f a) = p a) : (l.map f).find? p = (l.find? p).map f := by
  induction l with
  | nil => rfl
  | cons a t ih =>
    by_cases hp : p a = true
    · simp only [List.map_cons]
      rw [List.find?_cons_of_pos _ (by rw [h a]; exact hp),
        List.find?_cons_of_pos _ hp]
      rfl
    · have hp2 : p a = false := by simpa using hp
      simp only [List.map_cons]
      rw [List.find?_cons_of_neg _ (by rw [h a]; simp [hp2]),
        List.find?_cons_of_neg _ (by simp [hp2]), ih]

theorem aux_pairFilter_decide (u1 u2 : Nat) (c : Conversation) :
    pairFilter u1 u2 c = decide (specPair u1 u2 c) := by
  unfold pairFilter specPair
  by_cases h1 : c.buyer = u1 <;> by_cases h2 : c.seller = u2 <;>
    by_cases h3 : c.buyer = u2 <;> by_cases h4 : c.seller = u1 <;>
    simp [h1, h2, h3, h4] <;>
    first
      | (by_cases h5 : u1 = u2 <;> simp [h5])
      | (by_cases h5 : u2 = u1 <;> simp [h5])

theorem aux_sendEmail_conversations (db : DB) (env : NotifEnv)
    (n : Notification) :
    (sendEmailNotification db env n).1.conversations = db.conversations := by
  unfold sendEmailNotification
  cases env.transport <;> rfl

theorem aux_sendEmail_messages (db : DB) (env : NotifEnv) (n : Notification) :
    (sendEmailNotification db env n).1.messages = db.messages := by
  unfold sendEmailNotification
  cases env.transport <;> rfl

theorem aux_sendEmail_notifications_length (db : DB) (env : NotifEnv)
    (n : Notification) :
    (sendEmailNotification db env n).1.notifications.length
      = db.notifications.length := by
  unfold sendEmailNotification
  cases env.transport <;> simp

theorem aux_createNotification_conversations (db : DB) (env : NotifEnv)
    (r : UserRec) (nt : NotificationType) (t m : String) (oc oa : Option Nat)
    (ou : Option String) :
    (createNotification db env r nt t m oc oa ou).1.conversations
      = db.conversations := by
  unfold createNotification
  split <;> (show _ = _) <;> simp only [] <;> split <;>
    simp [aux_sendEmail_conversations]

theorem aux_createNotification_messages (db : DB) (env : NotifEnv)
    (r : UserRec) (nt : NotificationType) (t m : String) (oc oa : Option Nat)
    (ou : Option String) :
    (createNotification db env r nt t m oc oa ou).1.messages
      = db.messages := by
  unfold createNotification
  split <;> (show _ = _) <;> simp only [] <;> split <;>
    simp [aux_sendEmail_messages]

theorem aux_createNotification_length (db : DB) (env : NotifEnv)
    (r : UserRec) (nt : NotificationType) (t m : String) (oc oa : Option Nat)
    (ou : Option String) :
    (createNotification db env r nt t m oc oa ou).1.notifications.length
      = db.notifications.length + 1 := by
  unfold createNotification
  split <;> (show _ = _) <;> simp only [] <;> split <;>
    simp [aux_sendEmail_notifications_length]

theorem aux_signal_messages (db : DB) (m : Message) (b : Bool) :
    (messageCreatedSignal db m b).messages = db.messages := by
  unfold messageCreatedSignal
  split <;> rfl

theorem aux_signal_notifications (db : DB) (m : Message) (b : Bool) :
    (messageCreatedSignal db m b).notifications = db.notifications := by
  unfold messageCreatedSignal
  split <;> rfl

theorem aux_django_messages (db : DB) (cid s : Nat) (mt : MessageType)
    (ct : String) (im : Option String) (now : Nat) :
    (djangoMessageCreate db cid s mt ct im now).1.messages
      = db.messages ++ [(djangoMessageCreate db cid s mt ct im now).2] := by
  unfold djangoMessageCreate
  rw [aux_signal_messages]

theorem aux_applyLastUpdate_last (c : Conversation) (t : Nat) :
    (applyLastUpdate c t).last_message_at = omax c.last_message_at t := by
  unfold applyLastUpdate omax
  cases h : c.last_message_at with
  | none => rfl
  | some a =>
    by_cases hgt : t > a
    · simp [hgt, Nat.max_eq_right (Nat.le_of_lt hgt)]
    · simp [hgt, Nat.max_eq_left (Nat.not_lt.mp hgt), h]

theorem aux_applyLastUpdate_id (c : Conversation) (t : Nat) :
    (applyLastUpdate c t).id = c.id := by
  unfold applyLastUpdate
  cases c.last_message_at with
  | none => rfl
  | some a =>
    by_cases hgt : t > a <;> simp [hgt]

theorem aux_findUserD_id (db : DB) (uid : Nat) : (findUserD db uid).id = uid := by
  unfold findUserD
  cases h : db.users.find? (fun u => u.id == uid) with
  | none => rfl
  | some u =>
    have h2 := List.find?_some h
    simp only [beq_iff_eq] at h2
    simpa using h2

theorem aux_blockMap_eq (db : DB) (actor other : Nat) :
    db.conversations.map (fun c =>
      if pairFilter actor other c then
        { c with is_blocked := true, blocked_by := some actor }
      else c)
      = (specBlockState db actor other).conversations := by
  unfold specBlockState
  apply List.map_congr_left
  intro c _
  by_cases h : specPair actor other c <;> simp [aux_pairFilter_decide, h]

theorem aux_blockCount_eq (db : DB) (actor other : Nat) :
    (db.conversations.filter (pairFilter actor other)).length
      = specBlockCount db actor other := by
  unfold specBlockCount
  congr 1
  apply List.filter_congr
  intro c _
  rw [aux_pairFilter_decide]

theorem aux_unblockFilter_decide (actor other : Nat) (c : Conversation) :
    (pairFilter actor other c && c.blocked_by == some actor)
      = decide (specPair actor other c ∧ c.blocked_by = some actor) := by
  rw [aux_pairFilter_decide]
  by_cases h1 : specPair actor other c <;>
    by_cases h2 : c.blocked_by = some actor <;> simp [h1, h2]

theorem aux_unblockMap_eq (db : DB) (actor other : Nat) :
    db.conversations.map (fun c =>
      if pairFilter actor other c && c.blocked_by == some actor then
        { c with is_blocked := false, blocked_by := none }
      else c)
      = (specUnblockState db actor other).conversations := by
  unfold specUnblockState
  apply List.map_congr_left
  intro c _
  rw [aux_unblockFilter_decide]
  by_cases h : specPair actor other c ∧ c.blocked_by = some actor <;>
    simp [h]

theorem aux_unblockCount_eq (db : DB) (actor other : Nat) :
    (db.conversations.filter (fun c =>
      pairFilter actor other c && c.blocked_by == some actor)).length
      = specUnblockCount db actor other := by
  unfold specUnblockCount
  congr 1
  apply List.filter_congr
  intro c _
  rw [aux_unblockFilter_decide]

/-- C2: blocking through one conversation applies
`is_blocked = true, blocked_by = actor` to every conversation of the
{actor, other} pair (either role order, any listing) and returns the number
of pair conversations; only the user recorded as `blocked_by` on the
addressed conversation may unblock, and unblocking resets exactly the pair's
conversations whose `blocked_by` is the actor, leaving conversations blocked
by the other party unchanged. -/
theorem C2_block_unblock (db : DB) (actor cid : Nat) (conv : Conversation)
    (hfind : db.conversations.find? (fun c =>
        c.id == cid && (c.buyer == actor || c.seller == actor)) = some conv) :
    blockView db actor cid
      = Except.ok (specBlockState db actor (getOtherUser conv actor),
          specBlockCount db actor (getOtherUser conv actor))
    ∧ (conv.blocked_by ≠ some actor →
        unblockView db actor cid = Except.error ApiError.forbidden)
    ∧ (conv.blocked_by = some actor →
        unblockView db actor cid
          = Except.ok (specUnblockState db actor (getOtherUser conv actor),
              specUnblockCount db actor (getOtherUser conv actor))) := by
  have hp := List.find?_some hfind
  simp only [Bool.and_eq_true, Bool.or_eq_true, beq_iff_eq] at hp
  have hpart : (actor == conv.buyer || actor == conv.seller) = true := by
    rcases hp.2 with h | h
    · simp [beq_iff_eq, h]
    · simp [beq_iff_eq, h]
  refine ⟨?_, ?_, ?_⟩
  · unfold blockView
    rw [hfind]
    simp only [hpart, Bool.not_true, Bool.false_eq_true, if_false]
    rw [aux_blockMap_eq, aux_blockCount_eq]
    rfl
  · intro hbb
    unfold unblockView
    rw [hfind]
    have : (conv.blocked_by != some actor) = true := by
      simp [bne_iff_ne, hbb]
    simp [this]
  · intro hbb
    unfold unblockView
    rw [hfind]
    have : (conv.blocked_by != some actor) = false := by
      simp [hbb]
    simp only [this, Bool.false_eq_true, if_false]
    rw [aux_unblockMap_eq, aux_unblockCount_eq]
    rfl

/-- C2 witness: in a state whose only conversation (between users 1 and 2)
is blocked by user 1, the hypotheses of `C2_block_unblock` hold for actor 1
and all three conclusions apply. -/
theorem C2_block_unblock_witness :
    (exDbBlockedBy1.conversations.find? (fun c =>
        c.id == 1 && (c.buyer == 1 || c.seller == 1)) = some exConvBlockedBy1)
    ∧ (blockView exDbBlockedBy1 1 1
        = Except.ok
            (specBlockState exDbBlockedBy1 1 (getOtherUser exConvBlockedBy1 1),
             specBlockCount exDbBlockedBy1 1 (getOtherUser exConvBlockedBy1 1))
      ∧ (exConvBlockedBy1.blocked_by ≠ some 1 →
          unblockView exDbBlockedBy1 1 1 = Except.error ApiError.forbidden)
      ∧ (exConvBlockedBy1.blocked_by = some 1 →
          unblockView exDbBlockedBy1 1 1
            = Except.ok
                (specUnblockState exDbBlockedBy1 1
                  (getOtherUser exConvBlockedBy1 1),
                 specUnblockCount exDbBlockedBy1 1
                  (getOtherUser exConvBlockedBy1 1)))) :=
  ⟨rfl, C2_block_unblock exDbBlockedBy1 1 1 exConvBlockedBy1 rfl⟩

/-- C10: block and unblock touch only `is_blocked` and `blocked_by`: the
message log, the notification table, and every conversation's identity,
participant pair, listing, archived flag, creation time and
`last_message_at` are unchanged. -/
theorem C10_block_unblock_frame (db : DB) (actor cid : Nat) (db1 db2 : DB)
    (cnt1 cnt2 : Nat) :
    (blockView db actor cid = Except.ok (db1, cnt1) →
      db1.messages = db.messages ∧ db1.notifications = db.notifications
      ∧ db1.conversations.map frameFields = db.conversations.map frameFields)
    ∧ (unblockView db actor cid = Except.ok (db2, cnt2) →
      db2.messages = db.messages ∧ db2.notifications = db.notifications
      ∧ db2.conversations.map frameFields = db.conversations.map frameFields) := by
  constructor
  · intro hb
    unfold blockView at hb
    split at hb
    · simp at hb
    · split at hb
      · simp at hb
      · simp only [Except.ok.injEq, Prod.mk.injEq] at hb
        obtain ⟨hdb1, -⟩ := hb
        subst hdb1
        refine ⟨rfl, rfl, ?_⟩
        rw [List.map_map]
        apply List.map_congr_left
        intro c _
        simp only [Function.comp_apply]
        split <;> simp [frameFields]
  · intro hu
    unfold unblockView at hu
    split at hu
    · simp at hu
    · split at hu
      · simp at hu
      · simp only [Except.ok.injEq, Prod.mk.injEq] at hu
        obtain ⟨hdb2, -⟩ := hu
        subst hdb2
        refine ⟨rfl, rfl, ?_⟩
        rw [List.map_map]
        apply List.map_congr_left
        intro c _
        simp only [Function.comp_apply]
        split <;> simp [frameFields]

/-- C10 witness: blocking an ordinary (unblocked) 1↔2 conversation in the
base state satisfies the first implication non-vacuously, and unblocking the
conversation blocked by user 1 satisfies the second; the frame conditions
hold in both. -/
theorem C10_block_unblock_frame_witness :
    (blockView exDb 1 1
      = Except.ok (specBlockState exDb 1 2, specBlockCount exDb 1 2))
    ∧ ((specBlockState exDb 1 2).messages = exDb.messages
      ∧ (specBlockState exDb 1 2).notifications = exDb.notifications
      ∧ (specBlockState exDb 1 2).conversations.map frameFields
          = exDb.conversations.map frameFields)
    ∧ (unblockView exDbBlockedBy1 1 1
      = Except.ok (specUnblockState exDbBlockedBy1 1 2,
          specUnblockCount exDbBlockedBy1 1 2))
    ∧ ((specUnblockState exDbBlockedBy1 1 2).messages
          = exDbBlockedBy1.messages
      ∧ (specUnblockState exDbBlockedBy1 1 2).notifications
          = exDbBlockedBy1.notifications
      ∧ (specUnblockState exDbBlockedBy1 1 2).conversations.map frameFields
          = exDbBlockedBy1.conversations.map frameFields) :=
  ⟨by rfl,
   (C10_block_unblock_frame exDb 1 1 (specBlockState exDb 1 2)
     (specUnblockState exDb 1 2) (specBlockCount exDb 1 2)
     (specUnblockCount exDb 1 2)).1 (by rfl),
   by rfl,
   (C10_block_unblock_frame exDbBlockedBy1 1 1
     (specBlockState exDbBlockedBy1 1 2) (specUnblockState exDbBlockedBy1 1 2)
     (specBlockCount exDbBlockedBy1 1 2)
     (specUnblockCount exDbBlockedBy1 1 2)).2 (by rfl)⟩

/-- C9: on a state with one unread message (id 1) sent by user 2 in the 1↔2
conversation, a mark-read request by the non-sender participant (user 1)
fails with the `AttributeError` raised because `Message.mark_as_read` does
not exist (models.py defines it inside a module-level `save` function), and
a mark-read request by the sender (user 2) is rejected with the dedicated
validation error. -/
theorem C9_mark_read_crash :
    markReadView exDbMsg 1 1 = Except.error ApiError.attributeError
    ∧ markReadView exDbMsg 2 1
        = Except.error (ApiError.validationError
            "You cannot mark your own message as read.") :=
  ⟨rfl, rfl⟩

/-- C8: `Notify` always persists the in-app notification row first and that
row remains whatever the transport does; the email transport is invoked
exactly when the preference selected by the notification category
(message-notification preference for `new_message` / `new_conversation`,
general preference otherwise) and the system-wide toggle are both on; the
stored `email_sent` flag is true exactly when the transport was invoked and
succeeded — a transport failure or exception is absorbed (the function is
total) and leaves `email_sent = false`. -/
theorem C8_notification_dispatch (db : DB) (env : NotifEnv) (r : UserRec)
    (nt : NotificationType) (title msg : String) (oc oa : Option Nat)
    (ou : Option String) :
    ((createNotification db env r nt title msg oc oa ou).1.notifications.length
        = db.notifications.length + 1)
    ∧ ((createNotification db env r nt title msg oc oa ou).1.notifications.getLast?
        = some (createNotification db env r nt title msg oc oa ou).2)
    ∧ (createNotification db env r nt title msg oc oa ou).2.recipient = r.id
    ∧ (createNotification db env r nt title msg oc oa ou).2.notification_type = nt
    ∧ ((createNotification db env r nt title msg oc oa ou).1.sentEmails
        = db.sentEmails ++
            (if ((if nt = NotificationType.new_message
                    ∨ nt = NotificationType.new_conversation then
                    r.email_message_notifications
                  else r.email_notifications) && env.emailEnabled) = true then
              [db.nextNotificationId]
            else []))
    ∧ (createNotification db env r nt title msg oc oa ou).2.email_sent
        = ((if nt = NotificationType.new_message
              ∨ nt = NotificationType.new_conversation then
              r.email_message_notifications
            else r.email_notifications) && env.emailEnabled
           && decide (env.transport = SendOutcome.success)) := by
  cases env with
  | mk emailEnabled transport =>
    cases nt <;> cases transport <;>
      cases hr1 : r.email_message_notifications <;>
      cases hr2 : r.email_notifications <;>
      cases emailEnabled <;>
      simp [createNotification, sendEmailNotification, hr1, hr2,
        List.getLast?_concat]

/-- C6: a successful Retrieve marks every message of the conversation not
sent by the caller as read, leaves the caller's unread count for the
conversation at zero, and is idempotent — a second Retrieve (at any later
server time `now2`) returns exactly the same state. -/
theorem C6_retrieve_marks_read (db : DB) (user cid now now2 : Nat) (db1 : DB)
    (h : retrieveConversation db user cid now = Except.ok db1) :
    ((db1.messages.filter fun m =>
        m.conversation == cid && m.sender != user).all Message.is_read = true)
    ∧ getUnreadCount db1 cid user = 0
    ∧ retrieveConversation db1 user cid now2 = Except.ok db1 := by
  unfold retrieveConversation at h
  split at h
  · simp at h
  next c heq =>
    have hpred := List.find?_some heq
    have hcid : c.id = cid := by
      simp only [Bool.and_eq_true, beq_iff_eq] at hpred
      exact hpred.1.1.1
    simp only [Except.ok.injEq] at h
    have hread : ∀ m ∈ db1.messages,
        m.conversation = cid → m.sender ≠ user → m.is_read = true := by
      intro m hm hconv hsender
      rw [← h] at hm
      unfold markConversationRead at hm
      simp only [List.mem_map] at hm
      obtain ⟨m0, hm0, rfl⟩ := hm
      by_cases hcond :
          (m0.conversation == c.id && !m0.is_read && m0.sender != user) = true
      · simp [hcond]
      · have hcf : (m0.conversation == c.id && !m0.is_read
            && m0.sender != user) = false := by
          simpa using hcond
        simp only [hcf, Bool.false_eq_true, if_false] at hconv hsender ⊢
        have h1 : (m0.conversation == c.id) = true := by
          rw [beq_iff_eq, hcid]
          exact hconv
        have h3 : (m0.sender != user) = true := by
          simpa [bne_iff_ne] using hsender
        rw [h1, h3] at hcf
        simpa using hcf
    refine ⟨?_, ?_, ?_⟩
    · rw [List.all_eq_true]
      intro m hm
      have hmem := List.mem_filter.mp hm
      simp only [Bool.and_eq_true, beq_iff_eq, bne_iff_ne] at hmem
      simpa using hread m hmem.1 hmem.2.1 hmem.2.2
    · unfold getUnreadCount
      rw [List.length_eq_zero, List.filter_eq_nil_iff]
      intro m hm
      simp only [Bool.and_eq_true, Bool.not_eq_true', beq_iff_eq, bne_iff_ne,
        not_and]
      intro hconv hnr
      exact absurd (hread m hm hconv.1 hnr) (by simp [hconv.2])
    · have hconvs : db1.conversations = db.conversations := by
        rw [← h]
        rfl
      unfold retrieveConversation
      rw [hconvs, heq]
      show Except.ok (markConversationRead db1 c.id user now2) = Except.ok db1
      have hmap : db1.messages.map (fun m =>
          if m.conversation == c.id && !m.is_read && m.sender != user then
            { m with is_read := true, read_at := some now2 }
          else m) = db1.messages := by
        have : ∀ m ∈ db1.messages, (if m.conversation == c.id && !m.is_read
            && m.sender != user then
            { m with is_read := true, read_at := some now2 }
          else m) = m := by
          intro m hm
          by_cases hcond :
              (m.conversation == c.id && !m.is_read && m.sender != user) = true
          · exfalso
            simp only [Bool.and_eq_true, Bool.not_eq_true', beq_iff_eq,
              bne_iff_ne] at hcond
            have := hread m hm (by rw [← hcid]; exact hcond.1.1) hcond.2
            rw [this] at hcond
            simp at hcond
          · simp [hcond]
        calc db1.messages.map _ = db1.messages.map id :=
              List.map_congr_left (by simpa using this)
          _ = db1.messages := List.map_id db1.messages
      unfold markConversationRead
      rw [hmap]

/-- C6 witness: Retrieve by user 1 on the state with one unread message from
user 2 satisfies the hypothesis, and all three conclusions apply. -/
theorem C6_retrieve_marks_read_witness :
    (retrieveConversation exDbMsg 1 1 9
        = Except.ok (markConversationRead exDbMsg 1 1 9))
    ∧ ((((markConversationRead exDbMsg 1 1 9).messages.filter fun m =>
          m.conversation == 1 && m.sender != 1).all Message.is_read = true)
      ∧ getUnreadCount (markConversationRead exDbMsg 1 1 9) 1 1 = 0
      ∧ retrieveConversation (markConversationRead exDbMsg 1 1 9) 1 1 11
          = Except.ok (markConversationRead exDbMsg 1 1 9)) :=
  ⟨rfl, C6_retrieve_marks_read exDbMsg 1 1 9 11
    (markConversationRead exDbMsg 1 1 9) rfl⟩

/-- C7: when some conversation of the pair is blocked, create-or-get rejects
before creating or reusing anything, and the error names the direction: the
acting buyer is told they blocked the other user when the found
conversation's `blocked_by` is the actor, and told the other user blocked
them otherwise. -/
theorem C7_blocked_pair_rejected (db : DB) (env : NotifEnv)
    (buyer adId : Nat) (im : Option String) (now : Nat) (ad : Ad)
    (bc : Conversation)
    (hads : (db.ads.find? fun a =>
        a.id == adId && a.status == "approved").isNone = false)
    (him : (match im with
            | some s => s == "" || s.length > 1000
            | none => false) = false)
    (hget : db.ads.find? (fun a => a.id == adId) = some ad)
    (hself : buyer ≠ ad.user)
    (hbl : db.conversations.find? (fun c =>
        pairFilter buyer ad.user c && c.is_blocked) = some bc) :
    (bc.blocked_by = some buyer →
      conversationCreateView db env buyer adId im now
        = Except.error (ApiError.validationError
            "You have blocked this user. Please unblock them first to start a conversation."))
    ∧ (bc.blocked_by ≠ some buyer →
      conversationCreateView db env buyer adId im now
        = Except.error (ApiError.validationError
            "This user has blocked you. You cannot start a conversation with them.")) := by
  have hbeq : (buyer == ad.user) = false := by
    simp only [beq_eq_false_iff_ne, ne_eq]
    exact hself
  constructor
  · intro hbb
    have hb2 : (bc.blocked_by == some buyer) = true := by simp [hbb]
    unfold conversationCreateView
    simp [hads, him, hget, hbeq, hbl, hb2]
  · intro hbb
    have hb2 : (bc.blocked_by == some buyer) = false := by
      simp only [beq_eq_false_iff_ne, ne_eq]
      exact hbb
    unfold conversationCreateView
    simp [hads, him, hget, hbeq, hbl, hb2]

theorem aux_sendNewMsg_messages (db : DB) (env : NotifEnv)
    (r sndr : UserRec) (m : Message) (conv : Conversation) :
    (sendNewMessageNotification db env r sndr m conv).1.messages
      = db.messages := by
  unfold sendNewMessageNotification
  rw [aux_createNotification_messages]

theorem aux_sendNewMsg_conversations (db : DB) (env : NotifEnv)
    (r sndr : UserRec) (m : Message) (conv : Conversation) :
    (sendNewMessageNotification db env r sndr m conv).1.conversations
      = db.conversations := by
  unfold sendNewMessageNotification
  rw [aux_createNotification_conversations]

theorem aux_sendNewMsg_notifications_length (db : DB) (env : NotifEnv)
    (r sndr : UserRec) (m : Message) (conv : Conversation) :
    (sendNewMessageNotification db env r sndr m conv).1.notifications.length
      = db.notifications.length + 1 := by
  unfold sendNewMessageNotification
  rw [aux_createNotification_length]

theorem aux_createNotification_getLast (db : DB) (env : NotifEnv)
    (r : UserRec) (nt : NotificationType) (t m : String) (oc oa : Option Nat)
    (ou : Option String) :
    (createNotification db env r nt t m oc oa ou).1.notifications.getLast?
      = some (createNotification db env r nt t m oc oa ou).2 := by
  unfold createNotification sendEmailNotification
  split <;> (show _ = _) <;> simp only [] <;> split <;>
    (cases env.transport <;> simp [List.getLast?_concat, List.map_append])

theorem aux_createNotification_recipient (db : DB) (env : NotifEnv)
    (r : UserRec) (nt : NotificationType) (t m : String) (oc oa : Option Nat)
    (ou : Option String) :
    (createNotification db env r nt t m oc oa ou).2.recipient = r.id := by
  unfold createNotification sendEmailNotification
  split <;> (show _ = _) <;> simp only [] <;> split <;>
    (cases env.transport <;> simp)

theorem aux_createNotification_ntype (db : DB) (env : NotifEnv)
    (r : UserRec) (nt : NotificationType) (t m : String) (oc oa : Option Nat)
    (ou : Option String) :
    (createNotification db env r nt t m oc oa ou).2.notification_type = nt := by
  unfold createNotification sendEmailNotification
  split <;> (show _ = _) <;> simp only [] <;> split <;>
    (cases env.transport <;> simp)

theorem aux_sendNewMsg_getLast (db : DB) (env : NotifEnv)
    (r sndr : UserRec) (m : Message) (conv : Conversation) :
    ((sendNewMessageNotification db env r sndr m conv).1.notifications.getLast?).map
        (fun n => (n.recipient, n.notification_type))
      = some (r.id, NotificationType.new_message) := by
  unfold sendNewMessageNotification
  rw [aux_createNotification_getLast]
  simp [aux_createNotification_recipient, aux_createNotification_ntype]

theorem aux_core_snd (db : DB) (env : NotifEnv) (s : Nat)
    (conv : Conversation) (req : AppendRequest) (now : Nat) :
    (messageCreateCore db env s conv req now).2
      = (djangoMessageCreate db conv.id s req.message_type
          (req.content.getD "") req.image now).2 := by
  unfold messageCreateCore
  rfl

theorem aux_core_messages (db : DB) (env : NotifEnv) (s : Nat)
    (conv : Conversation) (req : AppendRequest) (now : Nat) :
    (messageCreateCore db env s conv req now).1.messages
      = db.messages ++ [(messageCreateCore db env s conv req now).2] := by
  unfold messageCreateCore
  rw [aux_sendNewMsg_messages, aux_django_messages]

theorem aux_core_msg_fields (db : DB) (env : NotifEnv) (s : Nat)
    (conv : Conversation) (req : AppendRequest) (now : Nat) :
    (messageCreateCore db env s conv req now).2.conversation = conv.id
    ∧ (messageCreateCore db env s conv req now).2.created_at = now
    ∧ (messageCreateCore db env s conv req now).2.message_type
        = req.message_type
    ∧ (messageCreateCore db env s conv req now).2.sender = s :=
  ⟨rfl, rfl, rfl, rfl⟩

theorem aux_signal_conversations (db : DB) (m : Message) (b : Bool) :
    (messageCreatedSignal db m b).conversations
      = if b && m.message_type != MessageType.system then
          db.conversations.map (fun c =>
            if c.id == m.conversation then applyLastUpdate c m.created_at
            else c)
        else db.conversations := by
  unfold messageCreatedSignal
  split <;> simp [*]

theorem aux_core_conversations (db : DB) (env : NotifEnv) (s : Nat)
    (conv : Conversation) (req : AppendRequest) (now : Nat) :
    (messageCreateCore db env s conv req now).1.conversations
      = if req.message_type != MessageType.system then
          db.conversations.map (fun c =>
            if c.id == conv.id then applyLastUpdate c now else c)
        else db.conversations := by
  unfold messageCreateCore djangoMessageCreate
  rw [aux_sendNewMsg_conversations, aux_signal_conversations]
  simp

theorem aux_appendStep_messages (env : NotifEnv) (db : DB)
    (call : AppendCall) :
    ∃ δ, (appendStep env db call).messages = db.messages ++ δ := by
  unfold appendStep
  split
  · next r hok =>
    unfold messageViewCreate at hok
    split at hok
    · simp at hok
    · next conv hv =>
      simp only [Except.ok.injEq] at hok
      subst hok
      exact ⟨_, aux_core_messages db env call.sender conv call.req call.now⟩
  · exact ⟨[], by simp⟩

theorem aux_runAppends_messages (env : NotifEnv) (calls : List AppendCall)
    (db : DB) :
    ∃ δ, (runAppends db env calls).messages = db.messages ++ δ := by
  induction calls generalizing db with
  | nil => exact ⟨[], by simp [runAppends]⟩
  | cons call rest ih =>
    obtain ⟨δ1, h1⟩ := aux_appendStep_messages env db call
    obtain ⟨δ2, h2⟩ := ih (appendStep env db call)
    refine ⟨δ1 ++ δ2, ?_⟩
    have : runAppends db env (call :: rest)
        = runAppends (appendStep env db call) env rest := rfl
    rw [this, h2, h1, List.append_assoc]

theorem aux_appendStep_lastMessageAt (env : NotifEnv) (db : DB)
    (call : AppendCall) (cid : Nat) (c0 : Conversation)
    (hc : db.conversations.find? (fun c => c.id == cid) = some c0) :
    lastMessageAt (appendStep env db call) cid
      = (nonSystemTimes cid (newMessages db (appendStep env db call))).foldl
          omax (lastMessageAt db cid)
    ∧ ∃ c1, (appendStep env db call).conversations.find?
        (fun c => c.id == cid) = some c1 := by
  unfold appendStep
  split
  · next r hok =>
    unfold messageViewCreate at hok
    split at hok
    · simp at hok
    · next conv hv =>
      simp only [Except.ok.injEq] at hok
      subst hok
      have hms := aux_core_messages db env call.sender conv call.req call.now
      have hconvs :=
        aux_core_conversations db env call.sender conv call.req call.now
      obtain ⟨hmc, hmt, hmty, -⟩ :=
        aux_core_msg_fields db env call.sender conv call.req call.now
      have hnew : newMessages db
          (messageCreateCore db env call.sender conv call.req call.now).1
          = [(messageCreateCore db env call.sender conv call.req call.now).2] := by
        unfold newMessages
        rw [hms]
        exact List.drop_left _ _
      rw [hnew]
      by_cases hsys : call.req.message_type = MessageType.system
      · have hcu : (messageCreateCore db env call.sender conv call.req
            call.now).1.conversations = db.conversations := by
          rw [hconvs]
          simp [hsys]
        constructor
        · unfold nonSystemTimes
          rw [List.filter_cons]
          have : ((messageCreateCore db env call.sender conv call.req
              call.now).2.conversation == cid
              && (messageCreateCore db env call.sender conv call.req
                  call.now).2.message_type != MessageType.system) = false := by
            rw [hmty]
            simp [hsys]
          rw [this]
          simp only [Bool.false_eq_true, if_false, List.filter_nil,
            List.map_nil, List.foldl_nil]
          unfold lastMessageAt
          rw [hcu]
        · refine ⟨c0, ?_⟩
          rw [hcu, hc]
      · have hcu : (messageCreateCore db env call.sender conv call.req
            call.now).1.conversations = db.conversations.map (fun c =>
              if c.id == conv.id then applyLastUpdate c call.now else c) := by
          rw [hconvs]
          simp [hsys]
        have hpres : ∀ a : Conversation,
            (((if a.id == conv.id then applyLastUpdate a call.now else a).id
              == cid)) = (a.id == cid) := by
          intro a
          by_cases h : (a.id == conv.id) = true
          · simp only [h, if_true]
            rw [aux_applyLastUpdate_id]
          · simp only [h, Bool.false_eq_true, if_false]
        have hfind2 : (messageCreateCore db env call.sender conv call.req
            call.now).1.conversations.find? (fun c => c.id == cid)
            = some (if c0.id == conv.id then applyLastUpdate c0 call.now
                else c0) := by
          rw [hcu, aux_find?_map_comm _ _ _ hpres, hc]
          rfl
        constructor
        · unfold lastMessageAt
          rw [hfind2, hc]
          unfold nonSystemTimes
          rw [List.filter_cons]
          have hc0id : c0.id = cid := by
            have := List.find?_some hc
            simpa [beq_iff_eq] using this
          by_cases heq2 : cid = conv.id
          · have hcnd : ((messageCreateCore db env call.sender conv call.req
                call.now).2.conversation == cid
                && (messageCreateCore db env call.sender conv call.req
                    call.now).2.message_type != MessageType.system) = true := by
              rw [hmty, hmc]
              simp [heq2, bne_iff_ne, hsys]
            rw [hcnd]
            have hce : (c0.id == conv.id) = true := by
              simp [hc0id, heq2]
            rw [hce]
            simp only [Option.some_bind, if_true, List.filter_nil,
              List.map_cons, List.map_nil, List.foldl_cons, List.foldl_nil,
              hmt]
            rw [aux_applyLastUpdate_last]
          · have hcnd : ((messageCreateCore db env call.sender conv call.req
                call.now).2.conversation == cid
                && (messageCreateCore db env call.sender conv call.req
                    call.now).2.message_type != MessageType.system) = false := by
              rw [hmc]
              simp [beq_iff_eq]
              intro hcc
              exact absurd hcc.symm heq2
            rw [hcnd]
            have : (c0.id == conv.id) = false := by
              simp only [beq_eq_false_iff_ne, ne_eq, hc0id]
              exact heq2
            rw [this]
            simp
        · exact ⟨_, hfind2⟩
  · constructor
    · unfold newMessages nonSystemTimes
      simp [List.drop_length]
    · exact ⟨c0, hc⟩

theorem aux_leOptB_trans (a b c : Option Nat) (h1 : leOptB a b = true)
    (h2 : leOptB b c = true) : leOptB a c = true := by
  cases a <;> cases b <;> cases c <;> (simp [leOptB] at *) <;> omega

theorem aux_leOptB_omax (o : Option Nat) (t : Nat) :
    leOptB o (omax o t) = true := by
  cases o <;> simp [leOptB, omax]

theorem aux_foldl_omax_le (l : List Nat) :
    ∀ o : Option Nat, leOptB o (l.foldl omax o) = true := by
  induction l with
  | nil =>
    intro o
    cases o <;> simp [leOptB]
  | cons t l ih =>
    intro o
    rw [List.foldl_cons]
    exact aux_leOptB_trans _ _ _ (aux_leOptB_omax o t) (ih (omax o t))

theorem aux_runAppends_lastMessageAt (env : NotifEnv)
    (calls : List AppendCall) (db : DB) (cid : Nat) (c0 : Conversation)
    (hc : db.conversations.find? (fun c => c.id == cid) = some c0) :
    lastMessageAt (runAppends db env calls) cid
      = (nonSystemTimes cid (newMessages db (runAppends db env calls))).foldl
          omax (lastMessageAt db cid) := by
  induction calls generalizing db c0 with
  | nil =>
    unfold runAppends newMessages nonSystemTimes
    simp [List.drop_length]
  | cons call rest ih =>
    obtain ⟨h1, c1, hfind1⟩ :=
      aux_appendStep_lastMessageAt env db call cid c0 hc
    have hrun : runAppends db env (call :: rest)
        = runAppends (appendStep env db call) env rest := rfl
    obtain ⟨δ1, e1⟩ := aux_appendStep_messages env db call
    obtain ⟨δ2, e2⟩ := aux_runAppends_messages env rest (appendStep env db call)
    have h2 := ih (appendStep env db call) c1 hfind1
    rw [hrun, h2, h1]
    have hn1 : newMessages db (appendStep env db call) = δ1 := by
      unfold newMessages
      rw [e1]
      exact List.drop_left _ _
    have hn2 : newMessages (appendStep env db call)
        (runAppends (appendStep env db call) env rest) = δ2 := by
      unfold newMessages
      rw [e2]
      exact List.drop_left _ _
    have hn12 : newMessages db (runAppends (appendStep env db call) env rest)
        = δ1 ++ δ2 := by
      unfold newMessages
      rw [e2, e1, List.append_assoc]
      exact List.drop_left _ _
    rw [hn1, hn2, hn12]
    unfold nonSystemTimes
    rw [List.filter_append, List.map_append, List.foldl_append]

/-- C1 (amended): over any sequence of calls to the message-create endpoint,
the stored `last_message_at` of conversation `cid` equals the fold of `max`
over its prior value and the timestamps of the successfully appended
**non-system** messages of that conversation — in particular it never
decreases, and creating a `system` message never updates it.  Marking the
conversation read and re-saving a message through the flag endpoint leave
every conversation row (hence `last_message_at`) unchanged. -/
theorem C1_last_message_at (db : DB) (env : NotifEnv)
    (calls : List AppendCall) (cid user now actor mid : Nat)
    (c0 : Conversation) (db1 : DB)
    (hc : db.conversations.find? (fun c => c.id == cid) = some c0) :
    lastMessageAt (runAppends db env calls) cid
      = (nonSystemTimes cid (newMessages db (runAppends db env calls))).foldl
          omax (lastMessageAt db cid)
    ∧ leOptB (lastMessageAt db cid)
        (lastMessageAt (runAppends db env calls) cid) = true
    ∧ (markConversationRead db cid user now).conversations = db.conversations
    ∧ (flagMessageView db actor mid = Except.ok db1 →
        db1.conversations = db.conversations) := by
  refine ⟨aux_runAppends_lastMessageAt env calls db cid c0 hc, ?_, rfl, ?_⟩
  · rw [aux_runAppends_lastMessageAt env calls db cid c0 hc]
    exact aux_foldl_omax_le _ _
  · intro h
    unfold flagMessageView at h
    split at h
    · simp at h
    · split at h
      · simp at h
      · simp only [Except.ok.injEq] at h
        subst h
        rfl

/-- C1 witness: on the base state with one stored message, appending a text
message at time 5 and a system message at time 10 satisfies the hypothesis
and all four conclusions apply. -/
theorem C1_last_message_at_witness :
    (exDbMsg.conversations.find? (fun c => c.id == 1) = some exConv)
    ∧ (lastMessageAt (runAppends exDbMsg exEnv [exCall1, exCall2]) 1
        = (nonSystemTimes 1 (newMessages exDbMsg
            (runAppends exDbMsg exEnv [exCall1, exCall2]))).foldl
            omax (lastMessageAt exDbMsg 1)
      ∧ leOptB (lastMessageAt exDbMsg 1)
          (lastMessageAt (runAppends exDbMsg exEnv [exCall1, exCall2]) 1)
          = true
      ∧ (markConversationRead exDbMsg 1 1 9).conversations
          = exDbMsg.conversations
      ∧ (flagMessageView exDbMsg 1 1 = Except.ok exDbMsg →
          exDbMsg.conversations = exDbMsg.conversations)) :=
  ⟨rfl, C1_last_message_at exDbMsg exEnv [exCall1, exCall2] 1 1 9 1 1 exConv
    exDbMsg rfl⟩

/-- C1 counterexample to the claim as stated: both appends succeed into
conversation 1 (created_at 5 and 10), yet the stored `last_message_at` is 5,
not the maximum 10 of the appended messages' timestamps — the system message
at time 10 did not update it. -/
theorem C1_counterexample :
    (runAppends exDb exEnv [exCall1, exCall2]).messages.map
        (fun m => (m.conversation, m.created_at)) = [(1, 5), (1, 10)]
    ∧ lastMessageAt (runAppends exDb exEnv [exCall1, exCall2]) 1 = some 5
    ∧ (5 : Nat) ≠ 10 :=
  ⟨rfl, rfl, by decide⟩

theorem aux_validate_ok_iff (db : DB) (req : AppendRequest) :
    (isOkE (messageCreateValidate db req) = true) ↔
      ((∃ c, db.conversations.find? (fun x => x.id == req.conversation)
            = some c ∧ c.is_active = true ∧ c.is_blocked = false)
        ∧ (∃ s0, req.content = some s0 ∧ s0 ≠ "")
        ∧ (req.message_type = MessageType.image → req.image ≠ none)) := by
  unfold messageCreateValidate
  cases hf : db.conversations.find? (fun c => c.id == req.conversation) with
  | none => simp [isOkE]
  | some conv =>
    cases hcnt : req.content with
    | none => simp [isOkE]
    | some s0 =>
      by_cases hs : s0 = ""
      · subst hs
        simp [isOkE]
      · have hsb : (s0 == "") = false := by simpa using hs
        simp only [hsb, Bool.and_false, Bool.false_eq_true, if_false]
        by_cases hty :
            (req.message_type == MessageType.image && req.image == none) = true
        · simp only [Bool.and_eq_true, beq_iff_eq] at hty
          simp [isOkE, hty.1, hty.2]
        · have hty2 : (req.message_type == MessageType.image
              && req.image == none) = false := by simpa using hty
          have hty3 : req.message_type = MessageType.image →
              req.image ≠ none := by
            intro h1 h2
            rw [h1, h2] at hty2
            simp at hty2
          simp only [hty2, Bool.false_eq_true, if_false]
          by_cases hact : conv.is_active
          · simp only [hact, Bool.not_true, Bool.false_eq_true, if_false]
            by_cases hbl : conv.is_blocked
            · simp [isOkE, hbl, hact]
            · have hblf : conv.is_blocked = false := by simpa using hbl
              simp [isOkE, hact, hblf, hs]
              exact fun h => hty3 h
          · have hactf : conv.is_active = false := by simpa using hact
            simp [isOkE, hactf]

/-- C4 (amended): a message-create request succeeds exactly when the
referenced conversation exists, is active and not blocked, a non-empty
`content` is supplied (DRF generates `content` as required for **every**
type, because the model field has no `blank=True`), and an image payload
accompanies `type=image`; whether the sender is a participant is **not**
checked.  On success exactly the one new message (with the requesting user
as sender) is appended; on failure DRF aborts before any write. -/
theorem C4_append_preconditions (db : DB) (env : NotifEnv) (s : Nat)
    (req : AppendRequest) (now : Nat) (db2 : DB) (m : Message) :
    ((isOkE (messageViewCreate db env s req now) = true) ↔
      ((∃ c, db.conversations.find? (fun x => x.id == req.conversation)
            = some c ∧ c.is_active = true ∧ c.is_blocked = false)
        ∧ (∃ s0, req.content = some s0 ∧ s0 ≠ "")
        ∧ (req.message_type = MessageType.image → req.image ≠ none)))
    ∧ (messageViewCreate db env s req now = Except.ok (db2, m) →
        db2.messages = db.messages ++ [m] ∧ m.sender = s) := by
  constructor
  · have hsame : isOkE (messageViewCreate db env s req now)
        = isOkE (messageCreateValidate db req) := by
      unfold messageViewCreate
      cases messageCreateValidate db req <;> rfl
    rw [hsame]
    exact aux_validate_ok_iff db req
  · intro hok
    unfold messageViewCreate at hok
    split at hok
    · simp at hok
    · next conv hv =>
      simp only [Except.ok.injEq] at hok
      have hdb2 : db2 = (messageCreateCore db env s conv req now).1 := by
        rw [hok]
      have hm2 : m = (messageCreateCore db env s conv req now).2 := by
        rw [hok]
      subst hdb2
      subst hm2
      refine ⟨aux_core_messages db env s conv req now, ?_⟩
      obtain ⟨-, -, -, hs2⟩ := aux_core_msg_fields db env s conv req now
      exact hs2

/-- C4 witness: a well-formed text append by participant 1 satisfies the
success side of the equivalence. -/
theorem C4_append_preconditions_witness :
    ((isOkE (messageViewCreate exDb exEnv 1 exCall1.req 5) = true) ↔
      ((∃ c, exDb.conversations.find? (fun x => x.id == exCall1.req.conversation)
            = some c ∧ c.is_active = true ∧ c.is_blocked = false)
        ∧ (∃ s0, exCall1.req.content = some s0 ∧ s0 ≠ "")
        ∧ (exCall1.req.message_type = MessageType.image →
            exCall1.req.image ≠ none)))
    ∧ (messageViewCreate exDb exEnv 1 exCall1.req 5 = Except.ok (exDb, exMsg) →
        exDb.messages = exDb.messages ++ [exMsg] ∧ exMsg.sender = 1) :=
  C4_append_preconditions exDb exEnv 1 exCall1.req 5 exDb exMsg

/-- C4 counterexample to the claim as stated: user 3 is not a participant of
conversation 1 (buyer 1, seller 2), every other precondition holds, and the
append nevertheless succeeds and persists the message with sender 3. -/
theorem C4_counterexample :
    apResultSender (messageViewCreate exDb exEnv 3 exCall1.req 7) = some 3
    ∧ apResultMsgCount (messageViewCreate exDb exEnv 3 exCall1.req 7) = some 1
    ∧ exConv.buyer = 1 ∧ exConv.seller = 2
    ∧ (3 : Nat) ≠ 1 ∧ (3 : Nat) ≠ 2
    ∧ exDb.conversations = [exConv] :=
  ⟨rfl, rfl, rfl, rfl, by decide, by decide, rfl⟩

theorem aux_django_notifications (db : DB) (cid s : Nat) (mt : MessageType)
    (ct : String) (im : Option String) (now : Nat) :
    (djangoMessageCreate db cid s mt ct im now).1.notifications
      = db.notifications := by
  unfold djangoMessageCreate
  rw [aux_signal_notifications]

theorem aux_drop_len_append {α : Type} (l1 l2 : List α) (n : Nat)
    (h : l1.length = n) : (l1 ++ l2).drop n = l2 := by
  subst h
  exact List.drop_left _ _

theorem aux_reactivate_notifications (db : DB) (c0 : Conversation) :
    (reactivateIfArchived db c0).notifications = db.notifications := by
  unfold reactivateIfArchived
  split <;> rfl

theorem aux_appendInitial_notifications (db : DB) (convId buyer : Nat)
    (im : Option String) (now : Nat) :
    (appendInitialMessage db convId buyer im now).notifications
      = db.notifications := by
  cases im with
  | none => rfl
  | some s =>
    unfold appendInitialMessage
    rw [aux_django_notifications]

theorem aux_createNotification_newNotifs (db : DB) (env : NotifEnv)
    (r : UserRec) (nt : NotificationType) (t m : String) (oc oa : Option Nat)
    (ou : Option String) :
    (createNotification db env r nt t m oc oa ou).1.notifications.drop
        db.notifications.length
      = [(createNotification db env r nt t m oc oa ou).2] := by
  unfold createNotification sendEmailNotification
  split <;> (show _ = _) <;> simp only [] <;> split <;>
    (cases env.transport <;>
      first
        | (simp only [List.map_append, List.map_cons, List.map_nil]
           rw [aux_drop_len_append _ _ _ (by simp)]
           simp)
        | (rw [aux_drop_len_append _ _ _ rfl]))

theorem aux_convSignal_newNotifs (db : DB) (env : NotifEnv)
    (c : Conversation) :
    ((conversationCreatedSignal db env c).notifications.drop
        db.notifications.length).all
      (fun n => n.notification_type != NotificationType.new_message)
      = true := by
  unfold conversationCreatedSignal sendNewConversationNotification
  rw [aux_createNotification_newNotifs]
  simp [aux_createNotification_ntype]

/-- C5 (amended): every successful call to the message-create endpoint —
including one creating a `type=system` message — adds exactly one
notification, of type `new_message`, addressed to
`get_other_user(conversation, request.user)`; when the sender is a
participant and the two participants differ, that recipient is never the
sender.  And this endpoint is the sole trigger of `new_message`
notifications: create-or-get (even with an initial message) adds only
non-`new_message` notifications, and retrieve, block, unblock, mark-read,
bulk read-marking and flag never touch the notification table. -/
theorem C5_append_notification (db : DB) (env : NotifEnv) (s : Nat)
    (req : AppendRequest) (now : Nat) (db2 : DB) (m : Message)
    (conv : Conversation) (b2 aId2 : Nat) (im2 : Option String)
    (now2 : Nat) (db3 : DB) (cid3 : Nat) (u2 cid2 a2 mid2 k5 k6 : Nat)
    (db4 db5 db6 db7 db8 : DB)
    (hv : messageCreateValidate db req = Except.ok conv)
    (hok : messageViewCreate db env s req now = Except.ok (db2, m)) :
    db2.notifications.length = db.notifications.length + 1
    ∧ (db2.notifications.getLast?).map
        (fun n => (n.recipient, n.notification_type))
      = some (getOtherUser conv s, NotificationType.new_message)
    ∧ ((s = conv.buyer ∨ s = conv.seller) → conv.buyer ≠ conv.seller →
        getOtherUser conv s ≠ s)
    ∧ (conversationCreateView db env b2 aId2 im2 now2 = Except.ok (db3, cid3) →
        (newNotifications db db3).all
          (fun n => n.notification_type != NotificationType.new_message)
          = true)
    ∧ (retrieveConversation db u2 cid2 now2 = Except.ok db4 →
        db4.notifications = db.notifications)
    ∧ (blockView db a2 cid2 = Except.ok (db5, k5) →
        db5.notifications = db.notifications)
    ∧ (unblockView db a2 cid2 = Except.ok (db6, k6) →
        db6.notifications = db.notifications)
    ∧ (markReadView db a2 mid2 = Except.ok db7 →
        db7.notifications = db.notifications)
    ∧ (flagMessageView db a2 mid2 = Except.ok db8 →
        db8.notifications = db.notifications)
    ∧ (markConversationRead db cid2 u2 now2).notifications
        = db.notifications := by
  unfold messageViewCreate at hok
  rw [hv] at hok
  simp only [Except.ok.injEq] at hok
  have hdb2 : db2 = (messageCreateCore db env s conv req now).1 := by
    rw [hok]
  subst hdb2
  refine ⟨?_, ?_, ?_, ?_, ?_, ?_, ?_, ?_, ?_, rfl⟩
  · unfold messageCreateCore
    rw [aux_sendNewMsg_notifications_length, aux_django_notifications]
  · unfold messageCreateCore
    rw [aux_sendNewMsg_getLast, aux_findUserD_id]
  · intro hp hne
    unfold getOtherUser
    rcases hp with h | h
    · rw [if_pos h]
      intro hc
      exact hne ((hc.trans h).symm)
    · by_cases hb : s = conv.buyer
      · rw [if_pos hb]
        intro hc
        exact hne ((hc.trans hb).symm)
      · rw [if_neg hb]
        intro hc
        exact hb hc.symm
  · intro h
    unfold conversationCreateView at h
    split at h
    · simp at h
    · split at h
      · simp at h
      · split at h
        · simp at h
        · next ad hget =>
          split at h
          · simp at h
          · split at h
            · split at h <;> simp at h
            · next hnb =>
              split at h
              · next cr htrip =>
                simp only [Except.ok.injEq, Prod.mk.injEq] at h
                obtain ⟨hX, -⟩ := h
                subst hX
                have hn : (appendInitialMessage (reactivateIfArchived db cr)
                    cr.id b2 im2 now2).notifications = db.notifications := by
                  rw [aux_appendInitial_notifications,
                    aux_reactivate_notifications]
                unfold newNotifications
                rw [hn, List.drop_length]
                rfl
              · next htripn =>
                simp only [Except.ok.injEq, Prod.mk.injEq] at h
                obtain ⟨hX, -⟩ := h
                subst hX
                unfold newNotifications
                rw [aux_appendInitial_notifications]
                exact aux_convSignal_newNotifs
                  { db with
                      conversations := db.conversations
                        ++ [newConv db b2 ad.user aId2 now2],
                      nextConversationId := db.nextConversationId + 1 }
                  env (newConv db b2 ad.user aId2 now2)
  · intro h
    unfold retrieveConversation at h
    split at h
    · simp at h
    · simp only [Except.ok.injEq] at h
      rw [← h]
      rfl
  · intro h
    unfold blockView at h
    split at h
    · simp at h
    · split at h
      · simp at h
      · simp only [Except.ok.injEq, Prod.mk.injEq] at h
        obtain ⟨hX, -⟩ := h
        rw [← hX]
  · intro h
    unfold unblockView at h
    split at h
    · simp at h
    · split at h
      · simp at h
      · simp only [Except.ok.injEq, Prod.mk.injEq] at h
        obtain ⟨hX, -⟩ := h
        rw [← hX]
  · intro h
    unfold markReadView at h
    split at h
    · simp at h
    · split at h
      · simp at h
      · split at h <;> simp at h
  · intro h
    unfold flagMessageView at h
    split at h
    · simp at h
    · split at h
      · simp at h
      · simp only [Except.ok.injEq] at h
        rw [← h]
        rw [aux_signal_notifications]

/-- C5 witness: the text append of user 1 at time 5 satisfies both
hypotheses, and the conclusions apply; the create-or-get, retrieve, block
and bulk read-marking side conclusions are instantiated at inputs where
their antecedents actually hold on the base state. -/
theorem C5_append_notification_witness :
    (messageCreateValidate exDb exCall1.req = Except.ok exConv)
    ∧ ((messageCreateCore exDb exEnv 1 exConv exCall1.req 5).1.notifications.length
        = exDb.notifications.length + 1
      ∧ ((messageCreateCore exDb exEnv 1 exConv exCall1.req 5).1.notifications.getLast?).map
          (fun n => (n.recipient, n.notification_type))
        = some (getOtherUser exConv 1, NotificationType.new_message)
      ∧ ((1 = exConv.buyer ∨ 1 = exConv.seller) →
          exConv.buyer ≠ exConv.seller → getOtherUser exConv 1 ≠ 1)
      ∧ (conversationCreateView exDb exEnv 1 1 none 3 = Except.ok (exDb, 1) →
          (newNotifications exDb exDb).all
            (fun n => n.notification_type != NotificationType.new_message)
            = true)
      ∧ (retrieveConversation exDb 1 1 3 = Except.ok exDb →
          exDb.notifications = exDb.notifications)
      ∧ (blockView exDb 1 1 = Except.ok (specBlockState exDb 1 2, 1) →
          (specBlockState exDb 1 2).notifications = exDb.notifications)
      ∧ (unblockView exDb 1 1 = Except.ok (exDb, 0) →
          exDb.notifications = exDb.notifications)
      ∧ (markReadView exDb 1 1 = Except.ok exDb →
          exDb.notifications = exDb.notifications)
      ∧ (flagMessageView exDb 1 1 = Except.ok exDb →
          exDb.notifications = exDb.notifications)
      ∧ (markConversationRead exDb 1 1 3).notifications
          = exDb.notifications) :=
  ⟨rfl, C5_append_notification exDb exEnv 1 exCall1.req 5
    (messageCreateCore exDb exEnv 1 exConv exCall1.req 5).1
    (messageCreateCore exDb exEnv 1 exConv exCall1.req 5).2
    exConv 1 1 none 3 exDb 1 1 1 1 1 1 0
    exDb (specBlockState exDb 1 2) exDb exDb exDb rfl rfl⟩

/-- C5 counterexample to the claim as stated: a `type=system` append by
user 1 succeeds and creates one notification, although the claim says a
system append creates none. -/
theorem C5_counterexample :
    apResultNotifCount (messageViewCreate exDb exEnv 1 exCall2.req 10)
      = some 1
    ∧ exCall2.req.message_type = MessageType.system
    ∧ exDb.notifications = [] :=
  ⟨rfl, rfl, rfl⟩

theorem aux_applyLastUpdate_triple (c : Conversation) (t : Nat) :
    (applyLastUpdate c t).buyer = c.buyer
    ∧ (applyLastUpdate c t).seller = c.seller
    ∧ (applyLastUpdate c t).ad = c.ad := by
  unfold applyLastUpdate
  cases c.last_message_at with
  | none => exact ⟨rfl, rfl, rfl⟩
  | some a => by_cases h : t > a <;> simp [h]

theorem aux_applyLastUpdate_flags (c : Conversation) (t : Nat) :
    (applyLastUpdate c t).is_active = c.is_active
    ∧ (applyLastUpdate c t).is_blocked = c.is_blocked := by
  unfold applyLastUpdate
  cases c.last_message_at with
  | none => exact ⟨rfl, rfl⟩
  | some a => by_cases h : t > a <;> simp [h]

theorem aux_tripleUnique_map (l : List Conversation)
    (f : Conversation → Conversation)
    (hf : ∀ c, (f c).buyer = c.buyer ∧ (f c).seller = c.seller
        ∧ (f c).ad = c.ad)
    (h : TripleUnique l) : TripleUnique (l.map f) := by
  unfold TripleUnique at *
  refine List.Pairwise.map f ?_ h
  intro a b hab hfab
  apply hab
  unfold sameTriple at *
  obtain ⟨ha1, ha2, ha3⟩ := hf a
  obtain ⟨hb1, hb2, hb3⟩ := hf b
  rw [ha1, ha2, ha3, hb1, hb2, hb3] at hfab
  exact hfab

theorem aux_convSignal_conversations (db : DB) (env : NotifEnv)
    (c : Conversation) :
    (conversationCreatedSignal db env c).conversations = db.conversations := by
  unfold conversationCreatedSignal sendNewConversationNotification
  rw [aux_createNotification_conversations]

theorem aux_appendInitial_conversations (db : DB) (convId buyer : Nat)
    (im : Option String) (now : Nat) :
    (appendInitialMessage db convId buyer im now).conversations
      = match im with
        | none => db.conversations
        | some _ => db.conversations.map (fun c =>
            if c.id == convId then applyLastUpdate c now else c) := by
  cases im with
  | none => rfl
  | some s =>
    unfold appendInitialMessage djangoMessageCreate
    rw [aux_signal_conversations]
    simp

/-- C3: (i) create-or-get preserves the natural-key invariant — at most one
conversation per (buyer, seller, ad) triple; (ii) when the triple already
has a conversation (and the pair is not blocked), the call returns that same
conversation instead of creating a second one: the conversation count is
unchanged, the stored row is reactivated (`is_active = true`) and its
`is_blocked` flag is untouched. -/
theorem C3_create_or_get :
    (∀ (db : DB) (env : NotifEnv) (buyer adId : Nat) (im : Option String)
        (now : Nat) (db1 : DB) (cid : Nat),
      TripleUnique db.conversations →
      conversationCreateView db env buyer adId im now = Except.ok (db1, cid) →
      TripleUnique db1.conversations)
    ∧ (∀ (db : DB) (env : NotifEnv) (buyer adId : Nat) (im : Option String)
        (now : Nat) (ad : Ad) (c0 : Conversation) (db1 : DB) (cid : Nat),
      db.ads.find? (fun a => a.id == adId) = some ad →
      db.conversations.find? (fun c =>
        pairFilter buyer ad.user c && c.is_blocked) = none →
      db.conversations.find? (fun c =>
        c.buyer == buyer && c.seller == ad.user && c.ad == adId) = some c0 →
      db.conversations.find? (fun c => c.id == c0.id) = some c0 →
      conversationCreateView db env buyer adId im now = Except.ok (db1, cid) →
      cid = c0.id
      ∧ db1.conversations.length = db.conversations.length
      ∧ ∃ c1, db1.conversations.find? (fun c => c.id == c0.id) = some c1
          ∧ c1.is_active = true
          ∧ c1.is_blocked = c0.is_blocked) := by
  constructor
  · intro db env buyer adId im now db1 cid hU hok
    unfold conversationCreateView at hok
    split at hok
    · simp at hok
    · split at hok
      · simp at hok
      · split at hok
        · simp at hok
        · next ad hget =>
          split at hok
          · simp at hok
          · split at hok
            · split at hok <;> simp at hok
            · next hnb =>
              split at hok
              · next conv htrip =>
                simp only [Except.ok.injEq, Prod.mk.injEq] at hok
                obtain ⟨hX, -⟩ := hok
                subst hX
                have h1 : TripleUnique
                    (reactivateIfArchived db conv).conversations := by
                  unfold reactivateIfArchived
                  split
                  · exact aux_tripleUnique_map _ _
                      (fun x => by
                        by_cases h : (x.id == conv.id) = true <;> simp [h])
                      hU
                  · exact hU
                rw [TripleUnique, aux_appendInitial_conversations]
                cases im with
                | none => exact h1
                | some s =>
                  exact aux_tripleUnique_map _ _
                    (fun c => by
                      by_cases h : (c.id == conv.id) = true <;>
                        simp [h, aux_applyLastUpdate_triple])
                    h1
              · next htripn =>
                simp only [Except.ok.injEq, Prod.mk.injEq] at hok
                obtain ⟨hX, -⟩ := hok
                subst hX
                rw [TripleUnique, aux_appendInitial_conversations]
                have h0 : TripleUnique (db.conversations
                    ++ [newConv db buyer ad.user adId now]) := by
                  unfold TripleUnique newConv
                  rw [List.pairwise_append]
                  refine ⟨hU, by simp, ?_⟩
                  intro a ha b hb
                  simp only [List.mem_singleton] at hb
                  subst hb
                  have hna := List.find?_eq_none.mp htripn a ha
                  unfold sameTriple
                  intro hsame
                  apply hna
                  simp only [Bool.and_eq_true, beq_iff_eq]
                  obtain ⟨hs1, hs2, hs3⟩ := hsame
                  exact ⟨⟨hs1, hs2⟩, hs3⟩
                cases im with
                | none =>
                  rw [aux_convSignal_conversations]
                  exact h0
                | some s =>
                  rw [aux_convSignal_conversations]
                  exact aux_tripleUnique_map _ _
                    (fun c => by
                      by_cases h : (c.id == (newConv db buyer ad.user adId
                          now).id) = true <;>
                        simp [h, aux_applyLastUpdate_triple])
                    h0
  · intro db env buyer adId im now ad c0 db1 cid hget hnb htrip hfid hok
    unfold conversationCreateView at hok
    split at hok
    · simp at hok
    · split at hok
      · simp at hok
      · split at hok
        · simp at hok
        · next ad2 hget2 =>
          rw [hget] at hget2
          simp only [Option.some.injEq] at hget2
          subst hget2
          split at hok
          · simp at hok
          · split at hok
            · next bc hbl2 =>
              rw [hnb] at hbl2
              simp at hbl2
            · next hnb2 =>
              split at hok
              · next conv htrip2 =>
                rw [htrip] at htrip2
                simp only [Option.some.injEq] at htrip2
                subst htrip2
                simp only [Except.ok.injEq, Prod.mk.injEq] at hok
                obtain ⟨h1, h2⟩ := hok
                subst h1
                refine ⟨h2.symm, ?_, ?_⟩
                · have hlen1 : (reactivateIfArchived db c0).conversations.length
                      = db.conversations.length := by
                    unfold reactivateIfArchived
                    split <;> simp
                  rw [aux_appendInitial_conversations]
                  cases im <;> simp [hlen1]
                · have hpre : ∃ b0,
                      (reactivateIfArchived db c0).conversations.find?
                        (fun c => c.id == c0.id) = some b0
                      ∧ b0.is_active = true
                      ∧ b0.is_blocked = c0.is_blocked
                      ∧ b0.id = c0.id := by
                    unfold reactivateIfArchived
                    split
                    · next hact =>
                      refine ⟨{ c0 with is_active := true }, ?_, rfl, rfl, rfl⟩
                      rw [aux_find?_map_comm _ _ _
                        (fun a => by
                          by_cases h : (a.id == c0.id) = true <;> simp [h]),
                        hfid]
                      simp
                    · next hact =>
                      refine ⟨c0, hfid, ?_, rfl, rfl⟩
                      simpa using hact
                  obtain ⟨b0, hb0f, hb0a, hb0b, hb0id⟩ := hpre
                  rw [aux_appendInitial_conversations]
                  cases im with
                  | none => exact ⟨b0, hb0f, hb0a, hb0b⟩
                  | some s =>
                    refine ⟨applyLastUpdate b0 now, ?_, ?_, ?_⟩
                    · rw [aux_find?_map_comm _ _ _
                        (fun a => by
                          by_cases h : (a.id == c0.id) = true <;>
                            simp [h, aux_applyLastUpdate_id]),
                        hb0f]
                      simp [hb0id]
                    · rw [(aux_applyLastUpdate_flags b0 now).1]
                      exact hb0a
                    · rw [(aux_applyLastUpdate_flags b0 now).2]
                      exact hb0b
              · next htripn2 =>
                rw [htrip] at htripn2
                simp at htripn2

/-- C3 witness: on the state whose only 1↔2 conversation about ad 1 is
archived, all hypotheses of both parts hold for a repeated create-or-get by
buyer 1, and the call reuses and reactivates the conversation. -/
theorem C3_create_or_get_witness :
    (exDbArchived.ads.find? (fun a => a.id == 1) = some exAd)
    ∧ (exDbArchived.conversations.find? (fun c =>
        pairFilter 1 exAd.user c && c.is_blocked) = none)
    ∧ (exDbArchived.conversations.find? (fun c =>
        c.buyer == 1 && c.seller == exAd.user && c.ad == 1)
        = some exConvArchived)
    ∧ (exDbArchived.conversations.find? (fun c => c.id == exConvArchived.id)
        = some exConvArchived)
    ∧ TripleUnique exDbArchived.conversations
    ∧ ((1 : Nat) = exConvArchived.id
      ∧ (reactivateIfArchived exDbArchived exConvArchived).conversations.length
          = exDbArchived.conversations.length
      ∧ ∃ c1, (reactivateIfArchived exDbArchived
            exConvArchived).conversations.find?
            (fun c => c.id == exConvArchived.id) = some c1
          ∧ c1.is_active = true
          ∧ c1.is_blocked = exConvArchived.is_blocked)
    ∧ TripleUnique (reactivateIfArchived exDbArchived
        exConvArchived).conversations :=
  ⟨rfl, rfl, rfl, rfl, by simp [TripleUnique, exDbArchived],
   C3_create_or_get.2 exDbArchived exEnv 1 1 none 3 exAd exConvArchived
     (reactivateIfArchived exDbArchived exConvArchived) 1
     rfl rfl rfl rfl rfl,
   C3_create_or_get.1 exDbArchived exEnv 1 1 none 3
     (reactivateIfArchived exDbArchived exConvArchived) 1
     (by simp [TripleUnique, exDbArchived]) rfl⟩

/-- C7 witness: user 2 blocked the 1↔2 conversation; buyer 1 attempting
create-or-get on ad 1 satisfies all hypotheses, and the second conclusion
produces the "this user has blocked you" error. -/
theorem C7_blocked_pair_rejected_witness :
    ((exDbBlocked.ads.find? fun a =>
        a.id == 1 && a.status == "approved").isNone = false)
    ∧ ((match (none : Option String) with
        | some s => s == "" || s.length > 1000
        | none => false) = false)
    ∧ (exDbBlocked.ads.find? (fun a => a.id == 1) = some exAd)
    ∧ ((1 : Nat) ≠ exAd.user)
    ∧ (exDbBlocked.conversations.find? (fun c =>
        pairFilter 1 exAd.user c && c.is_blocked) = some exConvBlocked)
    ∧ ((exConvBlocked.blocked_by = some 1 →
        conversationCreateView exDbBlocked exEnv 1 1 none 3
          = Except.error (ApiError.validationError
              "You have blocked this user. Please unblock them first to start a conversation."))
      ∧ (exConvBlocked.blocked_by ≠ some 1 →
        conversationCreateView exDbBlocked exEnv 1 1 none 3
          = Except.error (ApiError.validationError
              "This user has blocked you. You cannot start a conversation with them."))) :=
  ⟨rfl, rfl, rfl, by decide, rfl,
   C7_blocked_pair_rejected exDbBlocked exEnv 1 1 none 3 exAd exConvBlocked
     rfl rfl rfl (by decide) rfl⟩

end Messaging
